import Mathlib

/-!
# Verification of the AI_LTH medical-agent pipeline

Shallow embedding of the TypeScript sources of the AI_LTH repository:

* `src/ai/agents/base-agent.ts` (`BaseAgent`, `MedicalAgentOrchestrator`),
* `src/ai/agents/dosage-agent.ts`, `interaction-agent.ts`,
  `side-effects-agent.ts`, `medical-documentation-agent.ts`,
  `drug-information-agent.ts`,
* the OpenRouter client (`openrouter.ts`).

External effects (the hosted chat-completion endpoint, `fetch`, `JSON.parse`
of LLM replies) are modelled as explicit oracle parameters; every repository
function is translated to a total Lean function over those oracles.  JS
`async/await` sequencing becomes ordinary sequential data flow; a thrown JS
exception becomes `Except.error`.
-/

/-- The ASCII apostrophe character, used to assemble string literals. -/
def apos : String := String.singleton (Char.ofNat 39)

/-- JS `hay.includes(needle)`: substring containment test. -/
def strIncludes (hay needle : String) : Bool :=
  hay.toList.tails.any (fun t => needle.toList.isPrefixOf t)

/-- JS `s.toLowerCase()` (kernel-reducible counterpart of `String.toLower`). -/
def lowerStr (s : String) : String := String.mk (s.toList.map Char.toLower)

/-- JS `s.toUpperCase()`. -/
def upperStr (s : String) : String := String.mk (s.toList.map Char.toUpper)

/-- JS `s.trim()`: strip leading and trailing whitespace. -/
def trimStr (s : String) : String :=
  String.mk ((s.toList.dropWhile Char.isWhitespace).reverse.dropWhile
    Char.isWhitespace).reverse

/-- JS `s.startsWith(p)`. -/
def startsWithStr (s p : String) : Bool := p.toList.isPrefixOf s.toList

/-- The two UI languages of the app (`AgentContext.language`; named `Lang`
because `Language` is taken by Mathlib). -/
inductive Lang where
  | english
  | urdu
deriving DecidableEq, Repr

/-! ## `canHandle` of the five registered agents

Each `canHandle` below is translated from the corresponding agent class.
All five are pure `String → Bool` functions: none of them receives the LLM
oracle, mirroring that no `canHandle` in the source performs an LLM call.
-/

/-- List `dosageTerms` from `DosageAgent.canHandle` (dosage-agent.ts:35). -/
def dosageTerms : List String :=
  ["dose", "dosage", "mg", "ml", "tablet", "capsule",
   "how much", "how many", "strength", "frequency",
   "administration", "take", "timing"]

/-- Embeds `DosageAgent.canHandle` (dosage-agent.ts:31-40). -/
def dosageCanHandle (input : String) : Bool :=
  let inputLower := lowerStr input
  dosageTerms.any (fun term => strIncludes inputLower term)

/-- List `interactionKeywords` from `DrugInteractionAgent.canHandle`
(interaction-agent.ts:71-76). -/
def interactionKeywords : List String :=
  ["interaction", "interact", "combine", "together", "with",
   "safe", "contraindication", "avoid", "warning", "dangerous",
   "taking multiple", "drug interaction", "medication safety",
   "can i take", "should i avoid", "blood pressure medication"]

/-- Embeds `DrugInteractionAgent.canHandle` (interaction-agent.ts:70-80). -/
def interactionCanHandle (input : String) : Bool :=
  let inputLower := lowerStr input
  interactionKeywords.any (fun keyword => strIncludes inputLower keyword)

/-- List `sideEffectKeywords` from `SideEffectsAgent.canHandle`. -/
def sideEffectKeywords : List String :=
  ["side effect", "adverse effect", "reaction", "allergy", "allergic",
   "symptoms after taking", "caused by", "experience", "feeling",
   "nausea", "dizziness", "headache", "rash", "itching", "swelling",
   "what to expect", "common effects", "rare effects", "serious effects"]

/-- Embeds `SideEffectsAgent.canHandle`. -/
def sideEffectsCanHandle (input : String) : Bool :=
  sideEffectKeywords.any (fun keyword => strIncludes (lowerStr input) keyword)

/-- List `docKeywords` from `MedicalDocumentationAgent.canHandle`
(the list contains a keyword carrying an apostrophe — doctor/s note —
assembled here with an explicit apostrophe character). -/
def docKeywords : List String :=
  ["document", "prescription", "handwritten", "note",
   "doctor" ++ apos ++ "s note",
   "medical record", "chart", "read this", "analyze this document",
   "transcribe this", "what does this say"]

/-- Embeds `MedicalDocumentationAgent.canHandle`. -/
def medicalDocCanHandle (input : String) : Bool :=
  let inputLower := lowerStr input
  docKeywords.any (fun keyword => strIncludes inputLower keyword)

/-- Embeds `DrugInformationAgent.canHandle` (drug-information-agent.ts:201-206):
`true` exactly when the trimmed input is non-empty — no keyword list. -/
def drugInformationCanHandle (input : String) : Bool :=
  let normalized := trimStr input
  normalized.length > 0

/-- Generic static-keyword matching, the shape claim C3 asserts for every
agent: some keyword of the fixed list occurs in the lowercased input. -/
def keywordMatch (keywords : List String) (input : String) : Bool :=
  keywords.any (fun keyword => strIncludes (lowerStr input) keyword)

/-- The union of every static keyword list occurring in the agents of the
repository. -/
def allAgentKeywords : List String :=
  dosageTerms ++ interactionKeywords ++ sideEffectKeywords ++ docKeywords

example : dosageCanHandle "What dose of panadol" = true := by decide
example : dosageCanHandle "hello there" = false := by decide
example : drugInformationCanHandle "   " = false := by decide
example : drugInformationCanHandle "panadol" = true := by decide

/-! ## Orchestrator data model (base-agent.ts / orchestrator part)

`AgentResponse.isOcrResult` models the `metadata?.isOcrResult` flag the
orchestrator reads after OCR; `timestamp` (wall-clock) and the rest of the
free-form `metadata` record are observed by no claim and are omitted.
Confidences are exact rationals.
-/

structure AgentResponse where
  agentName : String
  response : String
  confidence : ℚ
  isOcrResult : Bool
deriving DecidableEq, Repr

structure AgentContext where
  conversationId : Option String
  userId : Option String
  language : Lang
  previousResponses : List AgentResponse
deriving DecidableEq, Repr

inductive QueryType where
  | medicine
  | drug_interaction
  | dosage
  | side_effects
  | medical_documentation
  | general
deriving DecidableEq, Repr

inductive Complexity where
  | simple
  | moderate
  | complex
deriving DecidableEq, Repr

structure QueryAnalysis where
  queryType : QueryType
  complexity : Complexity
  requiredAgents : List String
  priority : Nat
  medicalEntities : List String
deriving DecidableEq, Repr

structure OrchestratorResponse where
  primaryResponse : String
  agentResponses : List AgentResponse
  queryAnalysis : QueryAnalysis
  confidence : ℚ
  reasoning : List String
deriving DecidableEq, Repr

/-- The input of `processQuery`: a plain string or a
`{ text?, imageDataUri? }` object. -/
inductive Input where
  | str (s : String)
  | obj (text : Option String) (imageDataUri : Option String)
deriving DecidableEq, Repr

/-- JS truthiness of an optional string field (`undefined` and the empty
string are falsy). -/
def truthyOpt : Option String → Bool
  | none => false
  | some s => s != ""

/-- Models `typeof input === "object" && input.imageDataUri`. -/
def hasImage : Input → Bool
  | .str _ => false
  | .obj _ img => truthyOpt img

/-- Models `typeof input === "string" ? input : (input.text || "")`. -/
def getText : Input → String
  | .str s => s
  | .obj t _ => t.getD ""

/-- A registered agent as the orchestrator sees it: its name plus its
`canHandle` and `process` methods.  `process` may throw (`Except.error`),
standing for a rejected promise. -/
structure Agent where
  name : String
  canHandle : String → AgentContext → Bool
  process : Input → AgentContext → Except String AgentResponse

/-- The external LLM dependency: `callAnalysisLLM` (a chat-completion call
whose system message depends only on the context language) and the
`JSON.parse` + zod validation of an analysis reply.  Both are oracles: the
theorems below quantify over them. -/
structure Env where
  analysisLLM : Lang → String → Except String String
  parseAnalysis : String → Option QueryAnalysis

/-- Models `this.agents.get(name)` over the registered-agent list. -/
def findAgent (agents : List Agent) (n : String) : Option Agent :=
  agents.find? (fun a => a.name == n)

/-- The map `conversationMemory`, a map from conversation id to context history,
modelled as an association list. -/
abbrev Memory : Type := List (String × List AgentContext)

/-- JS `Map.set` (entry order is observed by no claim). -/
def memSet (m : Memory) (k : String) (v : List AgentContext) : Memory :=
  (k, v) :: List.filter (fun p => p.1 != k) m

/-- Models `Map.get` for the memory. -/
def memGet : Memory → String → Option (List AgentContext)
  | [], _ => none
  | (k, v) :: m, cid => if cid = k then some v else memGet m cid

/-- The analysis prompt of `analyzeQuery` (base-agent.ts:304-330).  The
fixed instructional text around the query is abbreviated: the theorems
quantify over the LLM oracle, so only the data flow of the query into the
prompt matters. -/
def mkAnalysisPrompt (queryText : String) : String :=
  "You are a medical query analysis expert. Analyze the following medical query. Query: \""
    ++ queryText ++ "\" Respond with a JSON object matching this schema."

/-- The catch-branch fallback analysis of `analyzeQuery`
(base-agent.ts:336-345). -/
def analysisFallback : QueryAnalysis :=
  { queryType := .medicine
    complexity := .moderate
    requiredAgents := ["DrugInformationAgent"]
    priority := 5
    medicalEntities := [] }

/-- Embeds `MedicalAgentOrchestrator.analyzeQuery` (base-agent.ts:303-346). -/
def analyzeQuery (env : Env) (queryText : String) (ctx : AgentContext) :
    QueryAnalysis :=
  match env.analysisLLM ctx.language (mkAnalysisPrompt queryText) with
  | .error _ => analysisFallback
  | .ok response => (env.parseAnalysis response).getD analysisFallback

/-- Embeds `MedicalAgentOrchestrator.shouldForceDrugInformationAgent`
(base-agent.ts:419-439). -/
def shouldForceDrugInformationAgent (queryText : String)
    (analysis : QueryAnalysis) : Bool :=
  let normalizedQuery := trimStr queryText
  if normalizedQuery = "" then false
  else if analysis.queryType = QueryType.medicine then true
  else if analysis.requiredAgents.contains "DrugInformationAgent" then true
  else analysis.medicalEntities.any (fun entity => trimStr entity != "")

/-- The classification prompt of `isMedicalAdviceRequest`
(base-agent.ts:554-560), abbreviated like `mkAnalysisPrompt`. -/
def mkAdvicePrompt (trimmed : String) : String :=
  "Determine whether the user is asking for personalized medical advice. Query: "
    ++ trimmed ++ " Respond with one of these labels only: MEDICAL_ADVICE OTHER"

/-- Embeds `MedicalAgentOrchestrator.isMedicalAdviceRequest`
(base-agent.ts:548-570). -/
def isMedicalAdviceRequest (env : Env) (queryText : String)
    (ctx : AgentContext) : Bool :=
  let trimmed := trimStr queryText
  if trimmed = "" then false
  else
    match env.analysisLLM ctx.language (mkAdvicePrompt trimmed) with
    | .error _ => false
    | .ok response => startsWithStr (upperStr (trimStr response)) "MEDICAL_ADVICE"

/-- The decimal literal `0.3` in constructor form (`3/10` in lowest terms),
so that concrete runs of the embedding reduce inside the kernel
(`Rat.div` does not). -/
def q3over10 : ℚ := ⟨3, 10, by norm_num, by norm_num⟩

/-- The value `q3over10` is the rational `3/10`. -/
theorem q3over10_eq_div : q3over10 = 3/10 := by
  unfold q3over10
  rw [Rat.mk'_eq_divInt, Rat.divInt_eq_div]
  norm_num

/-- Embeds `getMedicalAdviceDisclaimer` (base-agent.ts:572-596): the fixed
educational-system disclaimer, confidence 1.0. -/
def medicalAdviceDisclaimer (language : Lang) : AgentResponse :=
  { agentName := "EducationalSystem"
    response :=
      match language with
      | .urdu =>
        "**⚠️ اہم اطلاع ⚠️**\n    یہ سسٹم صرف ادویات کی تعلیمی معلومات فراہم کرتا ہے۔ یہ طبی مشورہ، تشخیص، یا علاج تجویز نہیں کرتا۔\n    \n    **براہ کرم مشورہ لیں:**\n    - اپنے لائسنس یافتہ ڈاکٹر سے\n    - کسی تجربہ کار فارماسسٹ سے\n    \n    **صحت کے مسائل کے لیے ہمیشہ پیشہ ور طبی مشورہ لیں۔**"
      | .english =>
        "**⚠️ IMPORTANT NOTICE ⚠️**\n    This system provides ONLY educational information about medicines. It does NOT provide medical advice, diagnoses, or treatment recommendations.\n    \n    **Please consult with:**\n    - Your licensed healthcare provider\n    - A qualified pharmacist  \n    \n    **For any health concerns, always seek professional medical consultation.**"
    confidence := 1
    isOcrResult := false }

/-- Embeds `getGeneralFallback` (base-agent.ts:598-608): the fixed fallback,
confidence 0.3. -/
def generalFallback (language : Lang) : AgentResponse :=
  { agentName := "EducationalSystem"
    response :=
      match language with
      | .urdu =>
        "یہ معاون صرف مخصوص ادویات کے بارے میں تعلیمی معلومات فراہم کرتا ہے۔ براہ کرم دوا کا واضح نام بتائیں تاکہ میں وضاحت کر سکوں۔"
      | .english =>
        "This assistant only explains recognised medicines. Please share the exact medicine name you want to learn about."
    confidence := q3over10
    isOcrResult := false }

/-- Models `[...new Set(xs)]`: deduplication keeping first occurrences. -/
def jsDedupAux (seen : List String) : List String → List String
  | [] => []
  | x :: xs =>
    if seen.contains x then jsDedupAux seen xs
    else x :: jsDedupAux (x :: seen) xs

/-- Models `[...new Set(xs)]`. -/
def jsDedup (l : List String) : List String := jsDedupAux [] l

/-- The body of `routeToAgents` up to (and excluding) the empty-check
(base-agent.ts:351-404): image bookkeeping, agent-name validation, the
per-agent fan-out (one invocation per entry of `validAgents`, failures and
blank responses filtered out).  Returns the filtered responses together
with the possibly-extended analysis (`requiredAgents.push` mutates the
analysis object in the source). -/
def gatherAgentResponses (agents : List Agent) (analysis : QueryAnalysis)
    (input : Input) (ctx : AgentContext) :
    List AgentResponse × QueryAnalysis :=
  let required :=
    if hasImage input
        && !(analysis.requiredAgents.contains "MedicalDocumentationAgent")
        && !(analysis.requiredAgents.contains "DrugInformationAgent")
    then analysis.requiredAgents ++ ["DrugInformationAgent"]
    else analysis.requiredAgents
  let analysis' := { analysis with requiredAgents := required }
  let availableAgentNames := agents.map (fun a => a.name)
  let validAgents := (jsDedup required).map (fun agentName =>
    if availableAgentNames.contains agentName then agentName
    else "DrugInformationAgent")
  let queryText := getText input
  let results := validAgents.map (fun agentName =>
    match findAgent agents agentName with
    | none => none
    | some agent =>
      if agent.canHandle queryText ctx
          || (agentName == "DrugInformationAgent"
              && shouldForceDrugInformationAgent queryText analysis')
      then
        match agent.process input ctx with
        | .ok r => some r
        | .error _ => none
      else none)
  let responses :=
    (results.filterMap id).filter (fun r => trimStr r.response != "")
  (responses, analysis')

/-- Embeds `MedicalAgentOrchestrator.routeToAgents` (base-agent.ts:351-417):
`gatherAgentResponses` plus the fallback when no agent produced a usable
response. -/
def routeToAgents (env : Env) (agents : List Agent) (analysis : QueryAnalysis)
    (input : Input) (ctx : AgentContext) :
    List AgentResponse × QueryAnalysis :=
  let gathered := gatherAgentResponses agents analysis input ctx
  let queryText := getText input
  if gathered.1.isEmpty then
    (if isMedicalAdviceRequest env queryText ctx then
        [medicalAdviceDisclaimer ctx.language]
      else [generalFallback ctx.language],
      gathered.2)
  else gathered

/-- The result triple of `synthesizeResponses`. -/
structure SynthOut where
  response : String
  confidence : ℚ
  reasoning : List String
deriving DecidableEq, Repr

/-- The `${analysis.queryType}` stringification. -/
def queryTypeStr : QueryType → String
  | .medicine => "medicine"
  | .drug_interaction => "drug_interaction"
  | .dosage => "dosage"
  | .side_effects => "side_effects"
  | .medical_documentation => "medical_documentation"
  | .general => "general"

/-- The `${context.language}` stringification. -/
def langStr : Lang → String
  | .english => "english"
  | .urdu => "urdu"

/-- The synthesis prompt (base-agent.ts:466-481), abbreviated like
`mkAnalysisPrompt` (the JS float rendering of `confidence * 100` is
elided); it carries the query type, the language and every agent report. -/
def mkSynthesisPrompt (agentResponses : List AgentResponse)
    (analysis : QueryAnalysis) (ctx : AgentContext) : String :=
  "You are a senior medical assistant. Query Type: "
    ++ queryTypeStr analysis.queryType
    ++ " Language: " ++ langStr ctx.language
    ++ " Agent Reports:"
    ++ String.join (agentResponses.map (fun r =>
        "\n--- Report from " ++ r.agentName ++ " ---\n" ++ r.response))
    ++ " Provide the final synthesized response below:"

/-- JS `Math.round` on the (non-negative) rationals that arise here. -/
def jsRound (q : ℚ) : ℤ := Int.floor (q + 1/2)

/-- Models `Math.round(avgConfidence * 100) / 100`. -/
def round2 (q : ℚ) : ℚ := (jsRound (q * 100) : ℚ) / 100

/-- The `reduce` of base-agent.ts:495-497: the (first) response of highest
confidence. -/
def bestResponse (r : AgentResponse) (rest : List AgentResponse) :
    AgentResponse :=
  rest.foldl (fun best current =>
    if current.confidence > best.confidence then current else best) r

/-- Embeds `MedicalAgentOrchestrator.synthesizeResponses` (base-agent.ts:444-505).
The second component counts the synthesis LLM calls made (0 or 1). -/
def synthesizeResponses (env : Env) (agentResponses : List AgentResponse)
    (analysis : QueryAnalysis) (ctx : AgentContext) : SynthOut × Nat :=
  match agentResponses with
  | [] =>
    ({ response :=
        "I apologize, but I wasn" ++ apos ++ "t able to process your "
          ++ queryTypeStr analysis.queryType
          ++ " query at this time. Please try rephrasing your question or contact support."
       confidence := 0
       reasoning := ["No agents available to handle this query"] }, 0)
  | [r] =>
    ({ response := r.response
       confidence := r.confidence
       reasoning := ["Single agent response from " ++ r.agentName] }, 0)
  | r :: rest =>
    match env.analysisLLM ctx.language
        (mkSynthesisPrompt agentResponses analysis ctx) with
    | .ok synthesizedResponse =>
      let avgConfidence :=
        (agentResponses.map (fun x => x.confidence)).sum
          / (agentResponses.length : ℚ)
      ({ response := synthesizedResponse
         confidence := round2 avgConfidence
         reasoning := agentResponses.map (fun x =>
            "Incorporated " ++ x.agentName ++ " response") }, 1)
    | .error _ =>
      let best := bestResponse r rest
      ({ response := best.response
         confidence := best.confidence
         reasoning := ["Fallback to best single agent response: "
            ++ best.agentName] }, 1)

/-- Embeds `MedicalAgentOrchestrator.updateConversationMemory`
(base-agent.ts:510-531). -/
def updateConversationMemory (memory : Memory) (ctx : AgentContext)
    (analysis : QueryAnalysis) (responses : List AgentResponse) : Memory :=
  match ctx.conversationId with
  | none => memory
  | some cid =>
    let conversationHistory :=
      ((memGet memory cid).getD [])
        ++ [{ ctx with previousResponses := responses }]
    let kept :=
      if conversationHistory.length > 10 then
        conversationHistory.drop (conversationHistory.length - 10)
      else conversationHistory
    memSet memory cid kept

/-- The catch-branch result of `processQuery` (base-agent.ts:282-297). -/
def errorOrchestratorResponse : OrchestratorResponse :=
  { primaryResponse :=
      "I apologize, but I encountered an error while processing your medical query. Please try rephrasing your question or contact support if the issue persists."
    agentResponses := []
    queryAnalysis :=
      { queryType := .general
        complexity := .simple
        requiredAgents := []
        priority := 1
        medicalEntities := [] }
    confidence := 0
    reasoning := ["Error occurred during processing"] }

/-- Step 1 of `processQuery` (base-agent.ts:241-260): the optional OCR
pre-pass.  This is the only statement of the `try` block whose failure is
not caught locally, so its error is the one that reaches the outer
`catch`. -/
def ocrPreprocess (agents : List Agent) (input : Input) (ctx : AgentContext) :
    Except String (String × Input) :=
  let queryText := getText input
  if hasImage input then
    match findAgent agents "MedicalDocumentationAgent" with
    | none => .ok (queryText, input)
    | some docAgent =>
      match docAgent.process input ctx with
      | .error e => .error e
      | .ok ocrResponse =>
        if decide (ocrResponse.confidence > q3over10) && ocrResponse.isOcrResult
        then
          let combined := queryText ++ "\n\n" ++ ocrResponse.response
          .ok (combined, .str combined)
        else .ok (queryText, input)
  else .ok (queryText, input)

/-- Models `queryText || "Image analysis request"` (base-agent.ts:263). -/
def defaultedQuery (queryText : String) : String :=
  if queryText = "" then "Image analysis request" else queryText

/-- Embeds `MedicalAgentOrchestrator.processQuery` (base-agent.ts:234-298),
threading the conversation memory explicitly. -/
def processQuery (env : Env) (agents : List Agent) (memory : Memory)
    (input : Input) (ctx : AgentContext) :
    OrchestratorResponse × Memory :=
  match ocrPreprocess agents input ctx with
  | .error _ => (errorOrchestratorResponse, memory)
  | .ok (queryText, processedInput) =>
    let queryAnalysis := analyzeQuery env (defaultedQuery queryText) ctx
    let routed := routeToAgents env agents queryAnalysis processedInput ctx
    let finalResponse := (synthesizeResponses env routed.1 routed.2 ctx).1
    let memory' := updateConversationMemory memory ctx routed.2 routed.1
    ({ primaryResponse := finalResponse.response
       agentResponses := routed.1
       queryAnalysis := routed.2
       confidence := finalResponse.confidence
       reasoning := finalResponse.reasoning }, memory')

/-- A sequence of `processQuery` calls against one orchestrator,
accumulating the conversation memory. -/
def runQueries (env : Env) (agents : List Agent) (memory : Memory)
    (queries : List (Input × AgentContext)) : Memory :=
  queries.foldl (fun m q => (processQuery env agents m q.1 q.2).2) memory

/-! ## OpenRouter client (`openrouter.ts`) -/

/-- A genkit-style inline-data prompt part. -/
structure InlineData where
  mimeType : String
  data : String
deriving DecidableEq, Repr

/-- One element of a multimodal prompt array. -/
structure PromptPart where
  text : Option String
  inlineData : Option InlineData
deriving DecidableEq, Repr

/-- The `prompt: any` argument of `OpenRouterClient.generate`: a plain
string, an array of parts, or any other value (which the source neither
branch handles). -/
inductive JPrompt where
  | str (s : String)
  | parts (l : List PromptPart)
  | other
deriving DecidableEq, Repr

inductive Role where
  | system
  | user
deriving DecidableEq, Repr

/-- One element of an OpenRouter `content` array. -/
inductive ContentPart where
  | ptext (s : String)
  | pimage (url : String)
deriving DecidableEq, Repr

/-- A message `content`: a plain string or an array of parts. -/
inductive MsgContent where
  | ctext (s : String)
  | cparts (l : List ContentPart)
deriving DecidableEq, Repr

structure Message where
  role : Role
  content : MsgContent
deriving DecidableEq, Repr

/-- The argument record of `generate` (the `output` schema field does not
influence the request body and is omitted). -/
structure GenRequest where
  prompt : JPrompt
  system : Option String
  model : Option String
deriving DecidableEq, Repr

/-- The destructuring default of openrouter.ts:39. -/
def defaultModel : String := "meta-llama/llama-3.2-3b-instruct:free"

/-- Models the destructuring `const ... = request` with its default model. -/
def requestModel (req : GenRequest) : String := req.model.getD defaultModel

/-- The multimodal loop of openrouter.ts:54-69: text parts become `text`
entries, `inlineData` parts become data-URL `image_url` entries, parts with
neither (or with a falsy `text` and no `inlineData`) are skipped. -/
def collectParts (l : List PromptPart) : List ContentPart :=
  l.filterMap (fun part =>
    if truthyOpt part.text then some (.ptext (part.text.getD ""))
    else
      match part.inlineData with
      | some d =>
        some (.pimage ("data:" ++ d.mimeType ++ ";base64," ++ d.data))
      | none => none)

/-- openrouter.ts:72: a single collected text part collapses to a plain
string content. -/
def userContent (l : List PromptPart) : MsgContent :=
  match collectParts l with
  | [ContentPart.ptext s] => .ctext s
  | content => .cparts content

/-- The user message(s) appended for each prompt shape: exactly one for a
string or an array, none for any other value. -/
def userMessages : JPrompt → List Message
  | .str s => [⟨.user, .ctext s⟩]
  | .parts l => [⟨.user, userContent l⟩]
  | .other => []

/-- The `messages` array of the request body (openrouter.ts:42-79):
optional system message first, then the user message. -/
def requestMessages (req : GenRequest) : List Message :=
  (if truthyOpt req.system then
      [⟨Role.system, MsgContent.ctext (req.system.getD "")⟩]
    else [])
    ++ userMessages req.prompt

/-- The JSON body of the single `fetch` (openrouter.ts:91-96): exactly the
fields `model`, `messages`, `temperature`, `max_tokens`. -/
structure RequestBody where
  model : String
  messages : List Message
  temperature : ℚ
  max_tokens : Nat
deriving DecidableEq, Repr

/-- Models `JSON.stringify({ model, messages, temperature: 0.7, max_tokens: 4000 })`. -/
def requestBody (req : GenRequest) : RequestBody :=
  { model := requestModel req
    messages := requestMessages req
    temperature := 7/10
    max_tokens := 4000 }

/-- What the embedding observes of a `fetch` response: the HTTP status, the
raw body text, whether the body parses as JSON, and
`choices[0].message.content` when the expected shape is present. -/
structure HttpResp where
  status : Nat
  body : String
  jsonOk : Bool
  content : Option String
deriving DecidableEq, Repr

/-- Models `Response.ok` of the fetch API: status in the 200-299 range. -/
def respOk (status : Nat) : Bool := 200 ≤ status && status ≤ 299

/-- Embeds `OpenRouterClient.generate` (openrouter.ts:28-118) over a fetch oracle.
The second result component counts the HTTP requests issued.  The
`"Unexpected token in JSON"` error stands in for the runtime SyntaxError
`response.json()` raises on a non-JSON body; no claim observes its text. -/
def generateRun (apiKey : String) (fetchOracle : RequestBody → HttpResp)
    (req : GenRequest) : Except String String × Nat :=
  if apiKey = "" then
    (.error "OpenRouter API key not configured. Please add OPENROUTER_API_KEY to your environment variables.",
      0)
  else
    let resp := fetchOracle (requestBody req)
    if !respOk resp.status then
      (.error ("OpenRouter API error: " ++ toString resp.status ++ " - "
          ++ resp.body), 1)
    else if !resp.jsonOk then
      (.error "Unexpected token in JSON", 1)
    else
      match resp.content with
      | none => (.error "Invalid response from OpenRouter API", 1)
      | some responseText => (.ok responseText, 1)

/-! ## Drug information agent (`drug-information-agent.ts`)

The handling of a medicine-profile LLM reply (drug-information-agent.ts:
559-665).  `JSON.parse` is a runtime builtin, not repository code, so it
enters as an oracle `String → Option ParsedProfile`; everything around it
(the API-error guard, the `UNKNOWN_MEDICINE_NOT_RECOGNIZED` marker, the
brace-span regex, the normalization and the unknown-medicine indicators) is
repository code and is embedded. -/

/-- The `{` character. -/
def leftBraceChar : Char := Char.ofNat 123

/-- The `}` character. -/
def rightBraceChar : Char := Char.ofNat 125

/-- Models `rawResponse.match(/\x7b[\s\S]*\x7d/)`: the (greedy, first) match runs
from the first `{` of the string to its last `}`; no match when no such
pair exists. -/
def jsonSpan (r : String) : Option String :=
  let cs := r.toList
  match cs.findIdx? (fun c => c = leftBraceChar),
      cs.reverse.findIdx? (fun c => c = rightBraceChar) with
  | some i, some jr =>
    let j := cs.length - 1 - jr
    if i < j then some (String.mk ((cs.drop i).take (j - i + 1))) else none
  | _, _ => none

/-- A parsed JSON value as `parseMedicineProfile` inspects it: a string, an
array, `null`, or anything else; `jother` carries the JS stringification
`String(value)` of the value, which is all the source ever reads of it. -/
inductive JVal where
  | jstr (s : String)
  | jarr (l : List JVal)
  | jnull
  | jother (asString : String)

mutual

/-- Models `String(entry ?? "")` (with JS null-coalescing to the empty string) as used on array entries. -/
def jvalString : JVal → String
  | .jstr s => s
  | .jnull => ""
  | .jother r => r
  | .jarr l => String.intercalate "," (jvalStringList l)

/-- The stringification applied across a JSON array. -/
def jvalStringList : List JVal → List String
  | [] => []
  | v :: vs => jvalString v :: jvalStringList vs

end

/-- The fields of the parsed profile object that the source reads. -/
structure ParsedProfile where
  medicineName : Option JVal
  type : Option JVal
  description : Option JVal
  usage : Option JVal
  reliability : Option JVal
  source : Option JVal
  sideEffects : Option JVal
  warnings : Option JVal
  agents : Option JVal

/-- Embeds `toStringValue` (drug-information-agent.ts:612-618): a string value is
trimmed and kept when non-empty; anything else is `undefined`. -/
def toStringValue : Option JVal → Option String
  | some (.jstr s) =>
    let trimmed := trimStr s
    if trimmed.length = 0 then none else some trimmed
  | _ => none

/-- Embeds `toStringArray` (drug-information-agent.ts:620-630): only arrays count;
entries are stringified and trimmed, blanks dropped, at most four kept, and
an empty result is `undefined`. -/
def toStringArray : Option JVal → Option (List String)
  | some (.jarr l) =>
    let cleaned :=
      (((jvalStringList l).map trimStr).filter
        (fun s => s.length > 0)).take 4
    if cleaned.isEmpty then none else some cleaned
  | _ => none

/-- How the medicine name reached the agent. -/
inductive Origin where
  | text
  | image
  | inference
deriving DecidableEq, Repr

/-- The unknown-medicine indicator test of drug-information-agent.ts:
637-646. -/
def unknownIndicators (medicineType description : Option String) : Bool :=
  (match medicineType with
    | some t =>
      lowerStr t == "unknown" || strIncludes (lowerStr t) "not specified"
    | none => false)
  || (match description with
    | some d =>
      strIncludes (lowerStr d) "not specified"
        || strIncludes (lowerStr d) "not available"
        || strIncludes (lowerStr d) "medication type not specified"
    | none => false)

/-- The normalized profile (`NormalizedDrugInfo`), with
`metadata.llmResponse` kept as `llmResponse`. -/
structure NormalizedDrugInfo where
  medicineName : String
  medicineType : Option String
  recognizedFrom : Origin
  description : Option String
  usage : Option String
  sideEffects : Option (List String)
  warnings : Option (List String)
  reliability : String
  source : String
  agentsInvolved : List String
  llmResponse : String
deriving DecidableEq, Repr

/-- Embeds `DrugInformationAgent.parseMedicineProfile`
(drug-information-agent.ts:588-665) over the `JSON.parse` oracle. -/
def parseMedicineProfile (parse : String → Option ParsedProfile)
    (rawResponse fallbackName : String) (origin : Origin) :
    Option NormalizedDrugInfo :=
  match jsonSpan rawResponse with
  | none => none
  | some jsonStr =>
    match parse jsonStr with
    | none => none
    | some parsed =>
      let medicineType := toStringValue parsed.type
      let description := toStringValue parsed.description
      if unknownIndicators medicineType description then none
      else
        some
          { medicineName := (toStringValue parsed.medicineName).getD fallbackName
            medicineType := medicineType
            recognizedFrom := origin
            description := description
            usage := toStringValue parsed.usage
            sideEffects := toStringArray parsed.sideEffects
            warnings := toStringArray parsed.warnings
            reliability := (toStringValue parsed.reliability).getD "Moderate"
            source := (toStringValue parsed.source).getD "AI-LTH Medical Info Agent"
            agentsInvolved :=
              (toStringArray parsed.agents).getD
                ["DrugInformationAgent", "ComplianceClassifier"]
            llmResponse := rawResponse }

/-- Embeds `BaseAgent.generateUnknownMedicineResponse` (base-agent.ts:139-171). -/
def generateUnknownMedicineResponse (queryText : String) (language : Lang) :
    String :=
  match language with
  | .urdu =>
    "❌ **معذرت، میں \"" ++ queryText
      ++ "\" کے بارے میں نہیں جانتا**\n\nمیں نے اپنی میڈیکل ڈیٹا بیس میں \""
      ++ queryText
      ++ "\" کے بارے میں کوئی معلومات نہیں ملی۔ یہ ممکن ہے کہ:\n\n• دوا کا نام غلط لکھا گیا ہو\n• یہ کوئی عام یا معروف دوا نہیں ہے\n• یہ کسی خاص علاقے یا ملک کی دوا ہو\n\n💡 **تجویز:** براہ کرم:\n1. دوا کا نام دوبارہ چیک کریں\n2. دوسرا نام استعمال کریں (برانڈ یا جنرک نام)\n3. یا کسی معروف دوا کے بارے میں پوچھیں (مثلاً Panadol، Aspirin، Brufen)\n\n⚠️ **نوٹ:** یہ صرف تعلیمی معلومات ہے—طبی مشورہ نہیں۔"
  | .english =>
    "❌ **Sorry, I don" ++ apos ++ "t know about \"" ++ queryText
      ++ "\"**\n\nI couldn" ++ apos ++ "t find any information about \""
      ++ queryText
      ++ "\" in my medical database. This could mean:\n\n• The medicine name might be misspelled\n• It"
      ++ apos
      ++ "s not a commonly recognized medicine\n• It might be a regional or country-specific medicine\n\n💡 **Suggestion:** Please:\n1. Double-check the spelling\n2. Try a different name (brand name or generic name)\n3. Or ask about a well-known medicine (e.g., Panadol, Aspirin, Brufen)\n\n⚠️ **Note:** This is educational information only—not medical advice."

/-- The API-configuration error response of
drug-information-agent.ts:562-568. -/
def apiConfigUnknownResponse (trimmedName : String) (language : Lang) :
    String :=
  match language with
  | .urdu =>
    "⚠️ معذرت، میں \"" ++ trimmedName
      ++ "\" کی معلومات حاصل نہیں کر سکا۔ API configuration کی ضرورت ہے۔ براہ کرم منتظم سے رابطہ کریں۔"
  | .english =>
    "⚠️ Sorry, I couldn" ++ apos ++ "t retrieve information about \""
      ++ trimmedName
      ++ "\". API configuration is required. Please contact the administrator to set up API keys."

/-- The two result shapes of `getDrugInformation`: a normalized profile or
an `isUnknown` record carrying the display string. -/
inductive DrugInfoResult where
  | profile (p : NormalizedDrugInfo)
  | unknown (msg : String)
deriving DecidableEq, Repr

/-- The reply-handling tail of `DrugInformationAgent.getDrugInformation`
(drug-information-agent.ts:559-586): the API-configuration guard, then the
`UNKNOWN_MEDICINE_NOT_RECOGNIZED` marker check on the trimmed upper-cased
reply, then `parseMedicineProfile` with the unknown-medicine response as
fallback. -/
def handleProfileResponse (parse : String → Option ParsedProfile)
    (response trimmedName : String) (language : Lang) (origin : Origin) :
    DrugInfoResult :=
  if response = "" || strIncludes response "API configuration"
      || strIncludes response "API key" then
    .unknown (apiConfigUnknownResponse trimmedName language)
  else if strIncludes (upperStr (trimStr response))
      "UNKNOWN_MEDICINE_NOT_RECOGNIZED" then
    .unknown (generateUnknownMedicineResponse trimmedName language)
  else
    match parseMedicineProfile parse response trimmedName origin with
    | none => .unknown (generateUnknownMedicineResponse trimmedName language)
    | some normalized => .profile normalized

/-! ## Concrete oracles and fixtures used by witnesses -/

/-- An environment whose LLM is unreachable (every call rejects). -/
def cEnv : Env :=
  { analysisLLM := fun _ _ => .error "offline"
    parseAnalysis := fun _ => none }

/-- An environment whose LLM always replies with a fixed string. -/
def cEnvOk : Env :=
  { analysisLLM := fun _ _ => .ok "MEDICAL_ADVICE"
    parseAnalysis := fun _ => none }

/-- A context with no conversation id, in English. -/
def cCtx : AgentContext :=
  { conversationId := none
    userId := none
    language := .english
    previousResponses := [] }

/-- Context `cCtx` with a conversation id. -/
def cCtxConv : AgentContext := { cCtx with conversationId := some "c1" }

/-- A documentation agent whose `process` promise rejects. -/
def failingDocAgent : Agent :=
  { name := "MedicalDocumentationAgent"
    canHandle := fun _ _ => false
    process := fun _ _ => .error "ocr failed" }

/-- A `JSON.parse` oracle that fails on every string. -/
def noParse : String → Option ParsedProfile := fun _ => none

/-- A fetch oracle answering 500 with body `oops`. -/
def f500 : RequestBody → HttpResp := fun _ => ⟨500, "oops", true, none⟩

/-- A fetch oracle answering 200 with a well-formed completion. -/
def okFetch : RequestBody → HttpResp := fun _ => ⟨200, "", true, some "fine"⟩

/-- A concrete `generate` request: string prompt, system prompt supplied. -/
def reqW : GenRequest := ⟨.str "hi", some "sys", none⟩

/-- A concrete `generate` request with a degenerate prompt value. -/
def reqOther : GenRequest := ⟨.other, none, none⟩

/-! ## Claims -/

/-- Claim C3, as stated, fails on the code: `DrugInformationAgent.canHandle`
accepts `"panadol"` although no keyword of any static keyword list of the
static keyword lists of the agents occurs in the lowercased input — its `canHandle` has no
keyword list at all, it tests only that the trimmed input is non-empty.  So
`canHandle` is not, for every registered agent, a static-keyword-list
match. -/
theorem C3_counterexample :
    drugInformationCanHandle "panadol" = true
      ∧ allAgentKeywords.all
          (fun kw => !(strIncludes (lowerStr "panadol") kw)) = true := by
  decide

/-- Claim C3 amended: four of the five registered agents (Dosage,
DrugInteraction, SideEffects, MedicalDocumentation) decide `canHandle`
purely by static keyword substring matching on the lowercased input, with
no LLM call; `DrugInformationAgent.canHandle` instead returns `true`
exactly when the trimmed input is non-empty (also with no LLM call). -/
theorem C3_canHandle_shapes :
    (∀ input, dosageCanHandle input = keywordMatch dosageTerms input)
      ∧ (∀ input,
          interactionCanHandle input = keywordMatch interactionKeywords input)
      ∧ (∀ input,
          sideEffectsCanHandle input = keywordMatch sideEffectKeywords input)
      ∧ (∀ input, medicalDocCanHandle input = keywordMatch docKeywords input)
      ∧ (∀ input,
          drugInformationCanHandle input = decide (0 < (trimStr input).length)) :=
  ⟨fun _ => rfl, fun _ => rfl, fun _ => rfl, fun _ => rfl, fun _ => rfl⟩

/-- Claim C5: every request body `OpenRouterClient.generate` sends carries
exactly the fields `model`, `messages`, `temperature`, `max_tokens` (the
`RequestBody` type has exactly those four fields), with `temperature` 0.7
and `max_tokens` 4000; for the two prompt shapes the claim describes
(plain string or multimodal part array), `messages` is an optional leading
system message — present exactly when a non-empty system prompt was
supplied — followed by exactly one user message built from the prompt. -/
theorem C5_request_body (req : GenRequest) (h : req.prompt ≠ JPrompt.other) :
    (requestBody req).temperature = 7/10
      ∧ (requestBody req).max_tokens = 4000
      ∧ (requestBody req).model = requestModel req
      ∧ ∃ u : Message, u.role = .user
          ∧ userMessages req.prompt = [u]
          ∧ (requestBody req).messages =
              (if truthyOpt req.system then
                  [⟨Role.system, MsgContent.ctext (req.system.getD "")⟩]
                else []) ++ [u] := by
  refine ⟨rfl, rfl, rfl, ?_⟩
  match hp : req.prompt with
  | .str s =>
    exact ⟨⟨.user, .ctext s⟩, rfl, rfl, by
      simp [requestBody, requestMessages, hp, userMessages]⟩
  | .parts l =>
    exact ⟨⟨.user, userContent l⟩, rfl, rfl, by
      simp [requestBody, requestMessages, hp, userMessages]⟩
  | .other => exact absurd hp h

/-- Witness for C5 at a concrete request (string prompt, system prompt
supplied). -/
theorem C5_request_body_witness :
    reqW.prompt ≠ JPrompt.other
      ∧ ((requestBody reqW).temperature = 7/10
          ∧ (requestBody reqW).max_tokens = 4000
          ∧ (requestBody reqW).model = requestModel reqW
          ∧ ∃ u : Message, u.role = .user
              ∧ userMessages reqW.prompt = [u]
              ∧ (requestBody reqW).messages =
                  (if truthyOpt reqW.system then
                      [⟨Role.system, MsgContent.ctext (reqW.system.getD "")⟩]
                    else []) ++ [u]) :=
  ⟨by decide, C5_request_body reqW (by decide)⟩

/-- Claim C6, as stated ("each call issues exactly one HTTP request"),
fails on the code: when no API key is configured, `generate` throws the
configuration error before issuing any request — zero requests, not one. -/
theorem C6_counterexample :
    (generateRun "" okFetch reqW).2 = 0
      ∧ (generateRun "" okFetch reqW).1 =
          .error "OpenRouter API key not configured. Please add OPENROUTER_API_KEY to your environment variables." := by
  constructor <;> rfl

/-- Claim C6 amended: `generate` performs no retry and no backoff — each
call issues at most one HTTP request, exactly one whenever an API key is
configured, and when the response status is not OK it throws an error
containing the status code and the response body instead of retrying. -/
theorem C6_single_request (apiKey : String)
    (fetchOracle : RequestBody → HttpResp) (req : GenRequest) :
    (generateRun apiKey fetchOracle req).2 ≤ 1
      ∧ (apiKey ≠ "" → (generateRun apiKey fetchOracle req).2 = 1)
      ∧ (apiKey ≠ "" →
          respOk (fetchOracle (requestBody req)).status = false →
          (generateRun apiKey fetchOracle req).1 =
            .error ("OpenRouter API error: "
              ++ toString (fetchOracle (requestBody req)).status ++ " - "
              ++ (fetchOracle (requestBody req)).body)) := by
  unfold generateRun
  by_cases hk : apiKey = ""
  · simp [hk]
  · cases hok : respOk (fetchOracle (requestBody req)).status <;>
      cases hj : (fetchOracle (requestBody req)).jsonOk <;>
      cases hc : (fetchOracle (requestBody req)).content <;>
      simp [hk, hok, hj, hc]

/-- Witness for C6 at a configured key and a 500 response: one request is
issued and the thrown error carries status and body. -/
theorem C6_single_request_witness :
    ("k" : String) ≠ ""
      ∧ respOk (f500 (requestBody reqW)).status = false
      ∧ (generateRun "k" f500 reqW).2 = 1
      ∧ (generateRun "k" f500 reqW).1 =
          .error ("OpenRouter API error: "
            ++ toString (f500 (requestBody reqW)).status ++ " - "
            ++ (f500 (requestBody reqW)).body) :=
  ⟨by decide, by decide,
    (C6_single_request "k" f500 reqW).2.1 (by decide),
    (C6_single_request "k" f500 reqW).2.2 (by decide) (by decide)⟩

/-- Claim C7, as stated, fails on the code: a reply that contains the
`UNKNOWN_MEDICINE_NOT_RECOGNIZED` marker (on its trimmed, upper-cased
form) but also mentions `API key` is intercepted by the preceding
API-configuration guard and yields the API-configuration response — not
the standardized unknown-medicine response for the queried name. -/
theorem C7_counterexample :
    strIncludes (upperStr (trimStr "API key UNKNOWN_MEDICINE_NOT_RECOGNIZED"))
        "UNKNOWN_MEDICINE_NOT_RECOGNIZED" = true
      ∧ handleProfileResponse noParse
          "API key UNKNOWN_MEDICINE_NOT_RECOGNIZED" "panadol" .english .text
          ≠ DrugInfoResult.unknown
              (generateUnknownMedicineResponse "panadol" .english)
      ∧ handleProfileResponse noParse
          "API key UNKNOWN_MEDICINE_NOT_RECOGNIZED" "panadol" .english .text
          = DrugInfoResult.unknown
              (apiConfigUnknownResponse "panadol" .english) := by
  refine ⟨by decide, ?_, by decide⟩
  decide

/-- Claim C7 amended: for a reply that is non-empty and mentions neither
`API configuration` nor `API key`, the marker branch and the parsing
branch behave as claimed — marker present (checked on the trimmed,
upper-cased reply) yields the standardized unknown-medicine response for
the queried name with no parsing; otherwise the profile is recovered by
extracting the span from the first `{` to the last `}` of the reply and
JSON-parsing it, falling back to the unknown-medicine response when no
such parseable span exists (or when the parsed profile carries the
unknown-medicine indicators of `parseMedicineProfile`). -/
theorem C7_reply_dispatch (parse : String → Option ParsedProfile)
    (response trimmedName : String) (lang : Lang) (origin : Origin)
    (hapi : (response = "" || strIncludes response "API configuration"
        || strIncludes response "API key") = false) :
    (strIncludes (upperStr (trimStr response))
          "UNKNOWN_MEDICINE_NOT_RECOGNIZED" = true →
        handleProfileResponse parse response trimmedName lang origin =
          .unknown (generateUnknownMedicineResponse trimmedName lang))
      ∧ (strIncludes (upperStr (trimStr response))
            "UNKNOWN_MEDICINE_NOT_RECOGNIZED" = false →
          handleProfileResponse parse response trimmedName lang origin =
            (match parseMedicineProfile parse response trimmedName origin with
              | none =>
                .unknown (generateUnknownMedicineResponse trimmedName lang)
              | some p => .profile p))
      ∧ (strIncludes (upperStr (trimStr response))
            "UNKNOWN_MEDICINE_NOT_RECOGNIZED" = false →
          jsonSpan response = none →
          handleProfileResponse parse response trimmedName lang origin =
            .unknown (generateUnknownMedicineResponse trimmedName lang)) := by
  unfold handleProfileResponse
  refine ⟨fun hm => ?_, fun hm => ?_, fun hm hs => ?_⟩ <;>
    simp [hapi, hm, parseMedicineProfile]
  simp [hs]

/-- Witness for C7: a plain-text reply without marker, API mention or any
brace span falls back to the unknown-medicine response. -/
theorem C7_reply_dispatch_witness :
    ("a plain text reply" = "" || strIncludes "a plain text reply" "API configuration"
        || strIncludes "a plain text reply" "API key") = false
      ∧ strIncludes (upperStr (trimStr "a plain text reply"))
          "UNKNOWN_MEDICINE_NOT_RECOGNIZED" = false
      ∧ jsonSpan "a plain text reply" = none
      ∧ handleProfileResponse noParse "a plain text reply" "panadol"
          .english .text =
          .unknown (generateUnknownMedicineResponse "panadol" .english) :=
  ⟨by decide, by decide, by decide,
    (C7_reply_dispatch noParse "a plain text reply" "panadol" .english .text
        (by decide)).2.2 (by decide) (by decide)⟩

/-- Claim C1: whenever the optional OCR pre-pass completes (in particular
for every plain-string query, where it is a no-op), `processQuery` runs
the fixed pipeline `analyzeQuery` → `routeToAgents` → `synthesizeResponses`
in that order — each stage consuming the output of the previous stage — and the
returned `primaryResponse` is exactly the string produced by
`synthesizeResponses`. -/
theorem C1_pipeline_order (env : Env) (agents : List Agent) (memory : Memory)
    (input : Input) (ctx : AgentContext) (queryText : String)
    (processedInput : Input)
    (h : ocrPreprocess agents input ctx = .ok (queryText, processedInput)) :
    processQuery env agents memory input ctx =
      (let analysis := analyzeQuery env (defaultedQuery queryText) ctx
       let routed := routeToAgents env agents analysis processedInput ctx
       let synth := (synthesizeResponses env routed.1 routed.2 ctx).1
       ({ primaryResponse := synth.response
          agentResponses := routed.1
          queryAnalysis := routed.2
          confidence := synth.confidence
          reasoning := synth.reasoning },
        updateConversationMemory memory ctx routed.2 routed.1)) := by
  simp only [processQuery, h]

/-- Witness for C1 at a concrete query. -/
theorem C1_pipeline_order_witness :
    processQuery cEnv [] [] (Input.str "hello") cCtx =
      (let analysis := analyzeQuery cEnv (defaultedQuery "hello") cCtx
       let routed := routeToAgents cEnv [] analysis (Input.str "hello") cCtx
       let synth := (synthesizeResponses cEnv routed.1 routed.2 cCtx).1
       ({ primaryResponse := synth.response
          agentResponses := routed.1
          queryAnalysis := routed.2
          confidence := synth.confidence
          reasoning := synth.reasoning },
        updateConversationMemory [] cCtx routed.2 routed.1)) :=
  C1_pipeline_order cEnv [] [] (Input.str "hello") cCtx "hello"
    (Input.str "hello") rfl

/-- Claim C2: `processQuery` is total (it is a function into
`OrchestratorResponse × Memory`, never an exception), and whenever an error
is raised while handling a query — in the source the only statement of the
`try` block whose failure is not already caught locally is the OCR
pre-pass — it returns the fixed apology record: the apology string, no
agent responses, confidence 0, and the fallback analysis (`general`,
`simple`, no required agents, priority 1, no medical entities), leaving
the conversation memory untouched. -/
theorem C2_error_apology (env : Env) (agents : List Agent) (memory : Memory)
    (input : Input) (ctx : AgentContext) (e : String)
    (h : ocrPreprocess agents input ctx = .error e) :
    processQuery env agents memory input ctx =
        (errorOrchestratorResponse, memory)
      ∧ errorOrchestratorResponse.primaryResponse =
          "I apologize, but I encountered an error while processing your medical query. Please try rephrasing your question or contact support if the issue persists."
      ∧ errorOrchestratorResponse.agentResponses = []
      ∧ errorOrchestratorResponse.confidence = 0
      ∧ errorOrchestratorResponse.queryAnalysis =
          { queryType := .general
            complexity := .simple
            requiredAgents := []
            priority := 1
            medicalEntities := [] } := by
  refine ⟨?_, rfl, rfl, rfl, rfl⟩
  simp only [processQuery, h]

/-- Witness for C2: an image query whose OCR agent rejects its promise. -/
theorem C2_error_apology_witness :
    ocrPreprocess [failingDocAgent]
        (Input.obj none (some "data:image/png;base64,AAA")) cCtx =
        .error "ocr failed"
      ∧ processQuery cEnv [failingDocAgent] []
          (Input.obj none (some "data:image/png;base64,AAA")) cCtx =
          (errorOrchestratorResponse, []) :=
  ⟨rfl,
    (C2_error_apology cEnv [failingDocAgent] []
      (Input.obj none (some "data:image/png;base64,AAA")) cCtx "ocr failed"
      rfl).1⟩

/-- Claim C9: when exactly one agent response reaches
`synthesizeResponses`, it is returned verbatim — same response text, same
confidence — with zero synthesis LLM calls, and consequently the
`primaryResponse` of the orchestrator is the response of that single agent. -/
theorem C9_single_agent_passthrough (env : Env) (r : AgentResponse)
    (analysis : QueryAnalysis) (ctx : AgentContext) :
    synthesizeResponses env [r] analysis ctx =
        ({ response := r.response
           confidence := r.confidence
           reasoning := ["Single agent response from " ++ r.agentName] }, 0)
      ∧ (∀ (agents : List Agent) (memory : Memory) (input : Input)
            (queryText : String) (processedInput : Input),
          ocrPreprocess agents input ctx = .ok (queryText, processedInput) →
          (routeToAgents env agents
              (analyzeQuery env (defaultedQuery queryText) ctx)
              processedInput ctx).1 = [r] →
          (processQuery env agents memory input ctx).1.primaryResponse =
              r.response
            ∧ (processQuery env agents memory input ctx).1.confidence =
              r.confidence) := by
  refine ⟨rfl, fun agents memory input queryText processedInput h1 h2 => ?_⟩
  constructor <;>
    · simp only [processQuery, h1, h2]
      simp [synthesizeResponses]

/-- Witness for C9: with an unreachable LLM and no registered agents, the
router yields exactly the general fallback response, and the
primary response of the orchestrator is that response verbatim. -/
theorem C9_single_agent_passthrough_witness :
    (processQuery cEnv [] [] (Input.str "hello") cCtx).1.primaryResponse =
        (generalFallback .english).response
      ∧ (processQuery cEnv [] [] (Input.str "hello") cCtx).1.confidence =
        (generalFallback .english).confidence :=
  (C9_single_agent_passthrough cEnv (generalFallback .english)
      analysisFallback cCtx).2
    [] [] (Input.str "hello") "hello" (Input.str "hello") rfl (by decide)

/-- Claim C10: `routeToAgents` always returns a non-empty list — rejected
promises and blank responses are filtered out by `gatherAgentResponses`,
and when nothing usable remains exactly one fallback is appended: the
medical-advice disclaimer (confidence 1.0) when the query is classified as
a personal-advice request, otherwise the general fallback (confidence
0.3). -/
theorem C10_route_nonempty (env : Env) (agents : List Agent)
    (analysis : QueryAnalysis) (input : Input) (ctx : AgentContext) :
    (routeToAgents env agents analysis input ctx).1 ≠ []
      ∧ ((gatherAgentResponses agents analysis input ctx).1 = [] →
          (routeToAgents env agents analysis input ctx).1 =
            [if isMedicalAdviceRequest env (getText input) ctx then
                medicalAdviceDisclaimer ctx.language
              else generalFallback ctx.language])
      ∧ ((gatherAgentResponses agents analysis input ctx).1 ≠ [] →
          (routeToAgents env agents analysis input ctx).1 =
            (gatherAgentResponses agents analysis input ctx).1)
      ∧ (medicalAdviceDisclaimer ctx.language).confidence = 1
      ∧ (generalFallback ctx.language).confidence = 3/10 := by
  refine ⟨?_, fun hg => ?_, fun hg => ?_, rfl, q3over10_eq_div⟩
  · by_cases hg : (gatherAgentResponses agents analysis input ctx).1 = [] <;>
      cases hA : isMedicalAdviceRequest env (getText input) ctx <;>
      simp [routeToAgents, hg, hA]
  · cases hA : isMedicalAdviceRequest env (getText input) ctx <;>
      simp [routeToAgents, hg, hA]
  · simp [routeToAgents, hg]

/-- Witness for C10: no registered agents, so the gathered list is empty
and the router returns the one fallback response. -/
theorem C10_route_nonempty_witness :
    (gatherAgentResponses [] analysisFallback (Input.str "hi") cCtx).1 = []
      ∧ (routeToAgents cEnv [] analysisFallback (Input.str "hi") cCtx).1 =
          [if isMedicalAdviceRequest cEnv (getText (Input.str "hi")) cCtx then
              medicalAdviceDisclaimer cCtx.language
            else generalFallback cCtx.language] :=
  ⟨by decide,
    (C10_route_nonempty cEnv [] analysisFallback (Input.str "hi") cCtx).2.1
      (by decide)⟩

/-- Every history stored in the memory holds at most 10 context entries. -/
def memBounded (m : Memory) : Prop :=
  ∀ cid hist, memGet m cid = some hist → hist.length ≤ 10

/-- Filtering out key `k` leaves lookups of other keys unchanged. -/
theorem memGet_filter (m : List (String × List AgentContext))
    (k k' : String) (h : k' ≠ k) :
    memGet (List.filter (fun p => p.1 != k) m) k' = memGet m k' := by
  induction m with
  | nil => rfl
  | cons p m ih =>
    rcases p with ⟨pk, pv⟩
    by_cases hp : pk = k
    · have hf : ((pk, pv).1 != k) = false := by simp [hp]
      rw [List.filter_cons, hf]
      simp only [memGet, if_neg (hp ▸ h)]
      exact ih
    · have hf : ((pk, pv).1 != k) = true := by simp [hp]
      rw [List.filter_cons, hf]
      simp only [memGet, ih]

/-- Lookup `memGet` after `memSet`. -/
theorem memGet_memSet (m : Memory) (k : String) (v : List AgentContext)
    (k' : String) :
    memGet (memSet m k v) k' = if k' = k then some v else memGet m k' := by
  unfold memSet
  by_cases h : k' = k
  · simp [memGet, h]
  · simp only [memGet, if_neg h]
    exact memGet_filter m k k' h

/-- Function `updateConversationMemory` preserves the 10-entry bound: the freshly
stored history is spliced down to at most 10 entries, other keys are
untouched. -/
theorem updateConversationMemory_bounded (m : Memory) (ctx : AgentContext)
    (analysis : QueryAnalysis) (rs : List AgentResponse)
    (hm : memBounded m) :
    memBounded (updateConversationMemory m ctx analysis rs) := by
  cases hc : ctx.conversationId with
  | none =>
    simp only [updateConversationMemory, hc]
    exact hm
  | some cid =>
    intro cid' hist h
    simp only [updateConversationMemory, hc] at h
    rw [memGet_memSet] at h
    by_cases hk : cid' = cid
    · rw [if_pos hk] at h
      injection h with h
      subst h
      split
      · rw [List.length_drop]
        omega
      · rename_i hcond
        omega
    · rw [if_neg hk] at h
      exact hm cid' hist h

/-- Function `processQuery` preserves the 10-entry bound (both on its success and
on its error path). -/
theorem processQuery_memBounded (env : Env) (agents : List Agent)
    (m : Memory) (input : Input) (ctx : AgentContext) (hm : memBounded m) :
    memBounded ((processQuery env agents m input ctx).2) := by
  unfold processQuery
  cases h : ocrPreprocess agents input ctx with
  | error e => exact hm
  | ok p =>
    rcases p with ⟨queryText, processedInput⟩
    exact updateConversationMemory_bounded m ctx
      (routeToAgents env agents (analyzeQuery env (defaultedQuery queryText) ctx)
        processedInput ctx).2
      (routeToAgents env agents (analyzeQuery env (defaultedQuery queryText) ctx)
        processedInput ctx).1
      hm

/-- Any sequence of queries preserves the 10-entry bound. -/
theorem runQueries_memBounded (env : Env) (agents : List Agent)
    (qs : List (Input × AgentContext)) (m : Memory) (hm : memBounded m) :
    memBounded (runQueries env agents m qs) := by
  induction qs generalizing m with
  | nil => exact hm
  | cons q qs ih =>
    exact ih _ (processQuery_memBounded env agents m q.1 q.2 hm)

/-- Claim C8: after any sequence of `processQuery` calls starting from the
empty conversation memory, every conversation holds at most 10 stored
context entries; and a query whose context carries no `conversationId`
leaves the conversation memory unchanged. -/
theorem C8_memory_bound :
    (∀ (env : Env) (agents : List Agent)
        (queries : List (Input × AgentContext)) (cid : String)
        (hist : List AgentContext),
        memGet (runQueries env agents [] queries) cid = some hist →
        hist.length ≤ 10)
      ∧ (∀ (env : Env) (agents : List Agent) (memory : Memory)
          (input : Input) (ctx : AgentContext),
          ctx.conversationId = none →
          (processQuery env agents memory input ctx).2 = memory) := by
  constructor
  · intro env agents queries cid hist h
    have h0 : memBounded ([] : Memory) := by
      intro c hh hcontr
      simp [memGet] at hcontr
    exact runQueries_memBounded env agents queries [] h0 cid hist h
  · intro env agents memory input ctx hcid
    unfold processQuery
    cases h : ocrPreprocess agents input ctx with
    | error e => rfl
    | ok p =>
      rcases p with ⟨queryText, processedInput⟩
      simp [updateConversationMemory, hcid]

/-- The single stored history of the C8 witness run. -/
def c8hist : List AgentContext :=
  [{ cCtxConv with previousResponses := [generalFallback .english] }]

/-- Witness for C8: one concrete query with a conversation id stores one
bounded history entry. -/
theorem C8_memory_bound_witness :
    memGet (runQueries cEnv [] [] [(Input.str "hi", cCtxConv)]) "c1" =
        some c8hist
      ∧ c8hist.length ≤ 10 :=
  ⟨by decide,
    C8_memory_bound.1 cEnv [] [(Input.str "hi", cCtxConv)] "c1" c8hist
      (by decide)⟩
